import Mathlib

/-!
Shallow embedding of the stopwatch `AppComponent` from
`src/src/app/app.component.ts`. The file contains two variants of the
component:

* Variant 1 (lines 19–101): `elapsedSeconds`, a `BehaviorSubject` running
  flag, an `ngOnInit` timer pipe `runningState$ → switchMap(interval(1000))
  → takeUntil(unsubscribe$)`, a wait-click pipe
  `waitClick$ → buffer(waitClick$.debounceTime(300)) → filter(len ≥ 2 ∧ running)`,
  `toggle`, `waitClick`, `reset`, and `ngOnDestroy`.

* Variant 2 (lines 116–193): `isRunning`, `elapsedSeconds`, a `time` string,
  a `toggle` that subscribes a fresh `interval(1000).pipe(takeWhile(() =>
  this.isRunning))` on every start, a wait-click pipe
  `clickStream$ → buffer(debounceTime(300)) → filter(len ≥ 2)`, `waitClick`,
  `reset`, `toggleWaitState`, and no `OnDestroy`.

Each variant is embedded as a state machine over an explicit event
alphabet; the RxJS timers are represented by the events they deliver
(`tick`, `debounceFire`), and the cancellation semantics of the operators
(`switchMap`/`takeUntil` versus `takeWhile`) are encoded in the step
functions exactly as the operators behave.
-/

namespace Stopwatch

/-- Two-digit zero padding of a natural number, as Angular's `DatePipe`
pads the `HH`, `mm` and `ss` fields. -/
def pad2 (n : Nat) : String :=
  if n < 10 then "0" ++ toString n else toString n

/-- Embedding of `DatePipe.transform(ms, 'HH:mm:ss', 'UTC')` on a
nonnegative epoch-milliseconds input `ms` (the only inputs variant 2 ever
passes): the UTC time of day of the instant `ms` milliseconds after the
epoch, formatted `HH:mm:ss`. The `|| '00:00:00'` fallback in the source is
unreachable for such inputs (`transform` returns a nonempty string), so the
embedding is total. -/
def datePipeHHmmssUTC (ms : Nat) : String :=
  pad2 (ms / 1000 / 3600 % 24) ++ ":" ++ pad2 (ms / 1000 % 3600 / 60) ++ ":"
    ++ pad2 (ms / 1000 % 60)

/-- Spec-side encoding, used only to compare with the code-side formatter:
the zero-padded `HH:mm:ss` encoding of `j` seconds, for `j < 86400`. -/
def hmsEncode (j : Nat) : String :=
  pad2 (j / 3600) ++ ":" ++ pad2 (j % 3600 / 60) ++ ":" ++ pad2 (j % 60)

/-- The code-side formatter agrees with the spec-side encoding of
`k mod 86400` seconds: `DatePipe`'s UTC `HH:mm:ss` view of `k*1000`
milliseconds wraps at 24 hours. -/
lemma datePipe_eq_hmsEncode (k : Nat) :
    datePipeHHmmssUTC (k * 1000) = hmsEncode (k % 86400) := by
  have hk : k * 1000 / 1000 = k := Nat.mul_div_cancel k (by norm_num)
  have h1 : k % 86400 / 3600 = k / 3600 % 24 := by
    have := Nat.mod_mul_right_div_self k 3600 24
    simpa using this
  have h2 : k % 86400 % 3600 = k % 3600 :=
    Nat.mod_mod_of_dvd k (by norm_num)
  have h3 : k % 86400 % 60 = k % 60 :=
    Nat.mod_mod_of_dvd k (by norm_num)
  simp [datePipeHHmmssUTC, hmsEncode, hk, h1, h2, h3]

/-! ## Click grouping (`buffer(debounceTime(300))`)

`debounceTime(300)` emits 300ms after the last click if no newer click has
arrived, and `buffer` then flushes the clicks accumulated since the last
flush. On a finite sequence of click timestamps this denotes: split the
sequence into maximal groups in which each click follows its predecessor
by strictly less than 300ms. -/

/-- Accumulator worker for click grouping. `cur` holds the current group in
reverse arrival order, `last` is the timestamp of the most recent click in
`cur`. A new click `t` joins the current group when `t - last < 300`
(the debounce timer had not yet fired), otherwise the group is flushed. -/
def groupClicksAux (cur : List Nat) (last : Nat) : List Nat → List (List Nat)
  | [] => [cur.reverse]
  | t :: ts =>
    if t - last < 300 then groupClicksAux (t :: cur) t ts
    else cur.reverse :: groupClicksAux [t] t ts

/-- Denotation of `buffer(clickStream$.pipe(debounceTime(300)))` on a finite
list of click timestamps (milliseconds, in arrival order): the list of
flushed click groups. -/
def groupClicks : List Nat → List (List Nat)
  | [] => []
  | t :: ts => groupClicksAux [t] t ts

/-- Number of pause signals the wait-click pipe emits on a finite list of
click timestamps: one per flushed group passing `filter(len ≥ 2)`
(the `filter((clicks) => clicks.length >= 2)` stage of both variants). -/
def pauseSignals (ts : List Nat) : Nat :=
  ((groupClicks ts).filter (fun g => 2 ≤ g.length)).length

lemma groupClicksAux_join (ts : List Nat) :
    ∀ cur last, (groupClicksAux cur last ts).flatten = cur.reverse ++ ts := by
  induction ts with
  | nil => intro cur last; simp [groupClicksAux]
  | cons t ts ih =>
    intro cur last
    by_cases h : t - last < 300
    · simp [groupClicksAux, h, ih]
    · simp [groupClicksAux, h, ih]

lemma groupClicksAux_chain (ts : List Nat) :
    ∀ cur last, cur.head? = some last →
      List.Chain' (fun a b => b - a < 300) cur.reverse →
      ∀ g ∈ groupClicksAux cur last ts, List.Chain' (fun a b => b - a < 300) g := by
  induction ts with
  | nil =>
    intro cur last _ hc g hg
    simp [groupClicksAux] at hg
    simpa [hg] using hc
  | cons t ts ih =>
    intro cur last hhd hc g hg
    by_cases h : t - last < 300
    · refine ih (t :: cur) t rfl ?_ g (by simpa [groupClicksAux, h] using hg)
      rw [List.reverse_cons, List.chain'_append]
      refine ⟨hc, List.chain'_singleton t, ?_⟩
      intro x hx y hy
      rw [List.getLast?_reverse, hhd] at hx
      simp at hx hy
      omega
    · simp only [groupClicksAux, h, if_false, List.mem_cons] at hg
      rcases hg with hg | hg
      · simpa [hg] using hc
      · exact ih [t] t rfl (List.chain'_singleton t) g hg

lemma groupClicksAux_head (ts : List Nat) :
    ∀ cur last, cur ≠ [] →
      ∃ g rest, groupClicksAux cur last ts = g :: rest ∧
        g.head? = cur.reverse.head? := by
  induction ts with
  | nil => intro cur last _; exact ⟨cur.reverse, [], rfl, rfl⟩
  | cons t ts ih =>
    intro cur last hne
    by_cases h : t - last < 300
    · obtain ⟨g, rest, heq, hhd⟩ := ih (t :: cur) t (by simp)
      refine ⟨g, rest, by simpa [groupClicksAux, h] using heq, ?_⟩
      rw [hhd, List.reverse_cons]
      cases cur with
      | nil => exact absurd rfl hne
      | cons a as => simp
    · exact ⟨cur.reverse, groupClicksAux [t] t ts, by simp [groupClicksAux, h], rfl⟩

/-- Boundary relation between two consecutive flushed groups: the first
click of the later group arrived at least 300ms after the last click of the
earlier group. -/
def GroupGap (g₁ g₂ : List Nat) : Prop :=
  ∀ a ∈ g₁.getLast?, ∀ b ∈ g₂.head?, 300 ≤ b - a

lemma groupClicksAux_gap (ts : List Nat) :
    ∀ cur last, cur.head? = some last →
      List.Chain' GroupGap (groupClicksAux cur last ts) := by
  induction ts with
  | nil => intro cur last _; simp [groupClicksAux]
  | cons t ts ih =>
    intro cur last hhd
    by_cases h : t - last < 300
    · simpa [groupClicksAux, h] using ih (t :: cur) t rfl
    · simp only [groupClicksAux, h, if_false]
      rw [List.chain'_cons']
      refine ⟨?_, ih [t] t rfl⟩
      intro g hg
      obtain ⟨g', rest, heq, ghd⟩ := groupClicksAux_head ts [t] t (by simp)
      rw [heq] at hg
      simp at hg
      subst hg
      intro a ha b hb
      rw [List.getLast?_reverse, hhd] at ha
      rw [ghd] at hb
      simp at ha hb
      omega

/-! ## Variant 1 (lines 19–101): `switchMap` timer, guarded wait handler -/

/-- Events delivered to variant 1's component. `tick` is an emission of the
inner `interval(1000)` currently selected by `switchMap`; `debounceFire` is
the 300ms quiet-period timer firing, which makes `buffer` flush;
`destroy` is the `ngOnDestroy` lifecycle hook. -/
inductive V1Event
  | toggle
  | reset
  | waitClick
  | tick
  | debounceFire
  | destroy
deriving DecidableEq

/-- State of variant 1. `running` is `runningState$.value`; `pending` is the
number of clicks accumulated in the `buffer` operator since its last flush;
`destroyed` records that `unsubscribe$` has fired. -/
structure V1State where
  elapsedSeconds : Nat
  running : Bool
  pending : Nat
  destroyed : Bool
deriving DecidableEq

/-- Variant 1's state at `ngOnInit`: counter 0, `BehaviorSubject(false)`,
empty click buffer, not destroyed. -/
def v1init : V1State := ⟨0, false, 0, false⟩

/-- One step of variant 1.

* `toggle`: `runningState$.next(!value)` — flips the flag. `switchMap`
  reacts synchronously: on `false` it unsubscribes the inner interval, on
  `true` it subscribes a fresh one, so at most one interval is ever live
  and `tick` below needs no generation index.
* `reset`: `runningState$.next(false); elapsedSeconds = 0`.
* `waitClick`: `waitClick$.next()` — the `buffer` operator accumulates it.
* `tick`: an inner-interval emission. Because `switchMap` cancels the old
  interval the instant the flag flips and `takeUntil(unsubscribe$)` tears
  the whole pipe down on destroy, a tick is delivered exactly when the flag
  is up and the component is alive; then `this.elapsedSeconds++`.
* `debounceFire`: `debounceTime(300)` fires, `buffer` flushes its `pending`
  clicks, and `filter(clicks.length >= 2 && runningState$.value)` decides
  whether `this.toggle()` runs. This subscription has no `takeUntil`, so it
  fires even after `destroy`.
* `destroy`: `ngOnDestroy` — `unsubscribe$.next()`. -/
def v1step (e : V1Event) (s : V1State) : V1State :=
  match e with
  | .toggle => { s with running := !s.running }
  | .reset => { s with running := false, elapsedSeconds := 0 }
  | .waitClick => { s with pending := s.pending + 1 }
  | .tick =>
    if s.running && !s.destroyed then
      { s with elapsedSeconds := s.elapsedSeconds + 1 }
    else s
  | .debounceFire =>
    if 2 ≤ s.pending && s.running then
      { s with pending := 0, running := !s.running }
    else { s with pending := 0 }
  | .destroy => { s with destroyed := true }

/-- Run variant 1 over a list of events in order. -/
def v1run (es : List V1Event) (s : V1State) : V1State :=
  es.foldl (fun s e => v1step e s) s

/-- Modelled from the spec: variant 1's template (`app.component.html`, not
present under `src/`) displays the elapsed time derived from
`elapsedSeconds` in the `HH:mm:ss` format, consistent with the counter. -/
def v1display (s : V1State) : String :=
  hmsEncode (s.elapsedSeconds % 86400)

/-! ## Variant 2 (lines 116–193): `takeWhile` timer, unguarded wait handler -/

/-- Events delivered to variant 2's component. Each start in `toggle`
subscribes a fresh `interval(1000).pipe(takeWhile(() => this.isRunning))`;
these subscriptions are distinguished by a generation number, and
`tick g` is an emission of the generation-`g` interval. `debounceFire` is
as in variant 1. Variant 2 implements no `OnDestroy`, so there is no
destroy event. -/
inductive V2Event
  | toggle
  | reset
  | waitClick
  | tick (gen : Nat)
  | debounceFire
deriving DecidableEq

/-- State of variant 2. `alive` holds the generations of interval
subscriptions that have not yet completed: `takeWhile` only completes a
subscription when one of its ticks arrives while `isRunning` is false —
`toggle`-off and `reset` never unsubscribe. `nextGen` numbers the next
start. -/
structure V2State where
  isRunning : Bool
  elapsedSeconds : Nat
  time : String
  pending : Nat
  alive : List Nat
  nextGen : Nat
deriving DecidableEq

/-- Variant 2's state at construction. -/
def v2init : V2State := ⟨false, 0, "00:00:00", 0, [], 0⟩

/-- One step of variant 2.

* `toggle`: `this.isRunning = !this.isRunning`; if now running, subscribe a
  fresh `interval(1000).pipe(takeWhile(() => this.isRunning))` (a new live
  generation). Stopping does not unsubscribe anything.
* `reset`: `isRunning = false; elapsedSeconds = 0; time = '00:00:00'`.
* `waitClick`: `waitClickSubject.next()` — buffered.
* `tick g`: an emission of the generation-`g` interval, if still
  subscribed. `takeWhile` checks `this.isRunning` at emission time: when
  true the value passes and the subscriber runs (`elapsedSeconds += 1` and
  `time = datePipe.transform(elapsedSeconds * 1000, 'HH:mm:ss', 'UTC')`);
  when false the stream completes and the subscription dies without
  emitting.
* `debounceFire`: `buffer` flushes; `filter(clicks.length >= 2)` (no
  running guard) decides whether `toggleWaitState()` sets
  `this.isRunning = false`. -/
def v2step (e : V2Event) (s : V2State) : V2State :=
  match e with
  | .toggle =>
    if !s.isRunning then
      { s with isRunning := true, alive := s.alive ++ [s.nextGen],
               nextGen := s.nextGen + 1 }
    else { s with isRunning := false }
  | .reset => { s with isRunning := false, elapsedSeconds := 0, time := "00:00:00" }
  | .waitClick => { s with pending := s.pending + 1 }
  | .tick g =>
    if g ∈ s.alive then
      if s.isRunning then
        { s with elapsedSeconds := s.elapsedSeconds + 1,
                 time := datePipeHHmmssUTC ((s.elapsedSeconds + 1) * 1000) }
      else { s with alive := s.alive.erase g }
    else s
  | .debounceFire =>
    if 2 ≤ s.pending then { s with pending := 0, isRunning := false }
    else { s with pending := 0 }

/-- Run variant 2 over a list of events in order. -/
def v2run (es : List V2Event) (s : V2State) : V2State :=
  es.foldl (fun s e => v2step e s) s

/-! ## Claim theorems -/

/-- Claim C1. The claim states that no tick scheduled during a superseded
running period fires after the stop is requested, so that after a stop
followed by a restart, ticks from the old period never increment
elapsed-seconds. Variant 2's `takeWhile (() => this.isRunning)` is a stale
boolean check, and the code violates the claim: run variant 2 on the
schedule `toggle` (start, generation 0), `tick 0` (elapsed 1), `toggle`
(stop requested), `toggle` (restart, generation 1). The generation-0
interval was never unsubscribed and no tick of it arrived while stopped, so
it is still alive; its next tick passes the `takeWhile` check against the
restarted flag and increments `elapsedSeconds` — a tick of the superseded
period firing after the stop was requested (and from here on the stopwatch
double-counts, two live intervals ticking at once). -/
theorem c1_superseded_tick_fires :
    (v2run [V2Event.toggle, V2Event.tick 0, V2Event.toggle,
            V2Event.toggle] v2init).nextGen = 2 ∧
    0 ∈ (v2run [V2Event.toggle, V2Event.tick 0, V2Event.toggle,
                V2Event.toggle] v2init).alive ∧
    1 ∈ (v2run [V2Event.toggle, V2Event.tick 0, V2Event.toggle,
                V2Event.toggle] v2init).alive ∧
    (v2run [V2Event.toggle, V2Event.tick 0, V2Event.toggle, V2Event.toggle,
            V2Event.tick 0] v2init).elapsedSeconds =
      (v2run [V2Event.toggle, V2Event.tick 0, V2Event.toggle,
              V2Event.toggle] v2init).elapsedSeconds + 1 := by
  decide

/-- Claim C9. The claim states that component teardown cancels every active
tick source and any pending debounce timer, and that no callback fires or
mutates component state after teardown. The code violates this: variant 1's
`ngOnDestroy` tears down only the timer pipe (`takeUntil(unsubscribe$)`);
the wait-click subscription built in `setupWaitHandler` has no `takeUntil`,
so a pending 300ms debounce timer survives `ngOnDestroy` and its `buffer`
flush still runs `this.toggle()` on the destroyed component. Run variant 1
on `toggle`, `waitClick`, `waitClick`, `destroy`: the state is destroyed
with the flag up and two buffered clicks, and the post-teardown
`debounceFire` flips the running flag — a callback mutating torn-down
state. (Variant 2 implements no `OnDestroy` at all, so nothing is ever
cancelled there.) -/
theorem c9_debounce_survives_teardown :
    (v1run [V1Event.toggle, V1Event.waitClick, V1Event.waitClick,
            V1Event.destroy] v1init).destroyed = true ∧
    (v1run [V1Event.toggle, V1Event.waitClick, V1Event.waitClick,
            V1Event.destroy] v1init).running = true ∧
    (v1run [V1Event.toggle, V1Event.waitClick, V1Event.waitClick,
            V1Event.destroy] v1init).pending = 2 ∧
    (v1run [V1Event.toggle, V1Event.waitClick, V1Event.waitClick,
            V1Event.destroy, V1Event.debounceFire] v1init).running
      = false := by
  decide

/-- Claim C4. After `reset()` the elapsed-seconds counter is 0, the
displayed time is `00:00:00`, and the running flag is false, from every
prior state: in variant 1 `reset` writes `runningState$.next(false)` (which
stops the timer via `switchMap`) and then zeroes the counter, and in
variant 2 it clears `isRunning`, `elapsedSeconds` and `time`
unconditionally. -/
theorem c4_reset_zeroes (s₁ : V1State) (s₂ : V2State) :
    (v1step V1Event.reset s₁).elapsedSeconds = 0 ∧
    (v1step V1Event.reset s₁).running = false ∧
    v1display (v1step V1Event.reset s₁) = "00:00:00" ∧
    (v2step V2Event.reset s₂).elapsedSeconds = 0 ∧
    (v2step V2Event.reset s₂).time = "00:00:00" ∧
    (v2step V2Event.reset s₂).isRunning = false := by
  refine ⟨rfl, rfl, ?_, rfl, rfl, rfl⟩
  simp [v1display, v1step]
  rfl

/-- Claim C10. A single `waitClick()` call is synchronously pure with
respect to the timer state: it only feeds the click into the `buffer`
operator (whose debounce delay is strictly positive), leaving the running
flag, the elapsed-seconds counter and the displayed time unchanged at the
moment of the call, in both variants. -/
theorem c10_waitclick_pure (s₁ : V1State) (s₂ : V2State) :
    (v1step V1Event.waitClick s₁).running = s₁.running ∧
    (v1step V1Event.waitClick s₁).elapsedSeconds = s₁.elapsedSeconds ∧
    v1display (v1step V1Event.waitClick s₁) = v1display s₁ ∧
    (v2step V2Event.waitClick s₂).isRunning = s₂.isRunning ∧
    (v2step V2Event.waitClick s₂).elapsedSeconds = s₂.elapsedSeconds ∧
    (v2step V2Event.waitClick s₂).time = s₂.time := by
  exact ⟨rfl, rfl, rfl, rfl, rfl, rfl⟩

/-- Claim C5. The double-click signal never starts the timer: when the
stopwatch is stopped, a flushed click group leaves the running flag false
and the elapsed-seconds counter and displayed time unchanged, in both
variants — variant 1's `filter` guard drops the group, and variant 2's
unguarded `toggleWaitState` writes `isRunning = false`, which is where it
already was. Moreover, in neither variant can the signal turn the flag from
false to true. -/
theorem c5_doubleclick_never_starts (s₁ : V1State) (s₂ : V2State)
    (h₁ : s₁.running = false) (h₂ : s₂.isRunning = false) :
    (v1step V1Event.debounceFire s₁).running = false ∧
    (v1step V1Event.debounceFire s₁).elapsedSeconds = s₁.elapsedSeconds ∧
    v1display (v1step V1Event.debounceFire s₁) = v1display s₁ ∧
    (v2step V2Event.debounceFire s₂).isRunning = false ∧
    (v2step V2Event.debounceFire s₂).elapsedSeconds = s₂.elapsedSeconds ∧
    (v2step V2Event.debounceFire s₂).time = s₂.time := by
  refine ⟨?_, ?_, ?_, ?_, ?_, ?_⟩ <;>
    simp [v1step, v2step, v1display, h₁, h₂]

/-- Witness for C5 at a concrete stopped state with two buffered clicks. -/
theorem c5_doubleclick_never_starts_witness :
    (v1step V1Event.debounceFire ⟨7, false, 2, false⟩).running = false ∧
    (v2step V2Event.debounceFire ⟨false, 7, "00:00:07", 2, [], 1⟩).isRunning
      = false :=
  ⟨(c5_doubleclick_never_starts ⟨7, false, 2, false⟩
      ⟨false, 7, "00:00:07", 2, [], 1⟩ rfl rfl).1,
   (c5_doubleclick_never_starts ⟨7, false, 2, false⟩
      ⟨false, 7, "00:00:07", 2, [], 1⟩ rfl rfl).2.2.2.1⟩

/-- Claim C6. While the stopwatch is running, a flushed click group of two
or more clicks (two clicks within 300ms) pauses it: the running flag
becomes false while the elapsed-seconds counter and the displayed time are
unchanged at the moment of the pause, in both variants. -/
theorem c6_doubleclick_pauses (s₁ : V1State) (s₂ : V2State)
    (h₁ : s₁.running = true) (hp₁ : 2 ≤ s₁.pending)
    (h₂ : s₂.isRunning = true) (hp₂ : 2 ≤ s₂.pending) :
    (v1step V1Event.debounceFire s₁).running = false ∧
    (v1step V1Event.debounceFire s₁).elapsedSeconds = s₁.elapsedSeconds ∧
    v1display (v1step V1Event.debounceFire s₁) = v1display s₁ ∧
    (v2step V2Event.debounceFire s₂).isRunning = false ∧
    (v2step V2Event.debounceFire s₂).elapsedSeconds = s₂.elapsedSeconds ∧
    (v2step V2Event.debounceFire s₂).time = s₂.time := by
  refine ⟨?_, ?_, ?_, ?_, ?_, ?_⟩ <;>
    simp [v1step, v2step, v1display, h₁, h₂, hp₁, hp₂]

/-- Witness for C6 at a concrete running state with two buffered clicks. -/
theorem c6_doubleclick_pauses_witness :
    (v1step V1Event.debounceFire ⟨5, true, 2, false⟩).running = false ∧
    (v2step V2Event.debounceFire ⟨true, 5, "00:00:05", 2, [0], 1⟩).isRunning
      = false :=
  ⟨(c6_doubleclick_pauses ⟨5, true, 2, false⟩ ⟨true, 5, "00:00:05", 2, [0], 1⟩
      rfl (by decide) rfl (by decide)).1,
   (c6_doubleclick_pauses ⟨5, true, 2, false⟩ ⟨true, 5, "00:00:05", 2, [0], 1⟩
      rfl (by decide) rfl (by decide)).2.2.2.1⟩

/-- Claim C3. On each tick while the stopwatch is running the
elapsed-seconds counter increases by exactly 1 (both variants), and
variant 2 recomputes the display as
`datePipe.transform(elapsedSeconds * 1000, 'HH:mm:ss', 'UTC')`, which
equals the zero-padded `HH:mm:ss` encoding of the counter modulo 86400
seconds — the formatter wraps at 24 hours. -/
theorem c3_tick_increments_and_formats (s₁ : V1State) (s₂ : V2State) (g : Nat)
    (h₁ : s₁.running = true) (hd₁ : s₁.destroyed = false)
    (hg : g ∈ s₂.alive) (h₂ : s₂.isRunning = true) :
    (v1step V1Event.tick s₁).elapsedSeconds = s₁.elapsedSeconds + 1 ∧
    (v2step (V2Event.tick g) s₂).elapsedSeconds = s₂.elapsedSeconds + 1 ∧
    (v2step (V2Event.tick g) s₂).time
      = hmsEncode ((s₂.elapsedSeconds + 1) % 86400) ∧
    ∀ k : Nat, datePipeHHmmssUTC (k * 1000) = hmsEncode (k % 86400) := by
  refine ⟨?_, ?_, ?_, fun k => datePipe_eq_hmsEncode k⟩
  · simp [v1step, h₁, hd₁]
  · simp [v2step, hg, h₂]
  · simp [v2step, hg, h₂, datePipe_eq_hmsEncode]

/-- Witness for C3: a tick at counter 5 yields counter 6 and display
`00:00:06`. -/
theorem c3_tick_increments_and_formats_witness :
    (v1step V1Event.tick ⟨5, true, 0, false⟩).elapsedSeconds = 6 ∧
    (v2step (V2Event.tick 0) ⟨true, 5, "00:00:05", 0, [0], 1⟩).time
      = "00:00:06" := by
  have h := c3_tick_increments_and_formats ⟨5, true, 0, false⟩
    ⟨true, 5, "00:00:05", 0, [0], 1⟩ 0 rfl rfl (by decide) rfl
  exact ⟨h.1, h.2.2.1.trans (by decide)⟩

lemma v2step_toggle_isRunning (s : V2State) :
    (v2step V2Event.toggle s).isRunning = !s.isRunning := by
  cases hs : s.isRunning <;> simp [v2step, hs]

lemma v1run_replicate_toggle (n : Nat) (s : V1State) :
    (v1run (List.replicate n V1Event.toggle) s).running =
      if n % 2 = 1 then !s.running else s.running := by
  induction n generalizing s with
  | zero => simp [v1run]
  | succ n ih =>
    rw [List.replicate_succ]
    show (v1run (List.replicate n V1Event.toggle)
      (v1step V1Event.toggle s)).running = _
    rw [ih]
    rcases Nat.mod_two_eq_zero_or_one n with h | h
    · have h' : (n + 1) % 2 = 1 := by omega
      simp [v1step, h, h']
    · have h' : (n + 1) % 2 = 0 := by omega
      simp [v1step, h, h']

lemma v2run_replicate_toggle (n : Nat) (s : V2State) :
    (v2run (List.replicate n V2Event.toggle) s).isRunning =
      if n % 2 = 1 then !s.isRunning else s.isRunning := by
  induction n generalizing s with
  | zero => simp [v2run]
  | succ n ih =>
    rw [List.replicate_succ]
    show (v2run (List.replicate n V2Event.toggle)
      (v2step V2Event.toggle s)).isRunning = _
    rw [ih, v2step_toggle_isRunning]
    rcases Nat.mod_two_eq_zero_or_one n with h | h
    · have h' : (n + 1) % 2 = 1 := by omega
      simp [h, h']
    · have h' : (n + 1) % 2 = 0 := by omega
      simp [h, h']

/-- Claim C7. Starting from the initial (stopped) state, after `N` calls of
`toggle()` with nothing else interleaved, the running flag is up iff `N` is
odd, in both variants: each call flips the flag and touches nothing that
feeds back into it. -/
theorem c7_toggle_parity (N : Nat) :
    ((v1run (List.replicate N V1Event.toggle) v1init).running = true
      ↔ N % 2 = 1) ∧
    ((v2run (List.replicate N V2Event.toggle) v2init).isRunning = true
      ↔ N % 2 = 1) := by
  rw [v1run_replicate_toggle, v2run_replicate_toggle]
  rcases Nat.mod_two_eq_zero_or_one N with h | h <;>
    simp [v1init, v2init, h]

/-- Claim C8. The elapsed-seconds counter is a natural number changed by no
transition except a tick delivered while running (which adds exactly 1) and
`reset` (which zeroes it): every other event — toggling, wait clicks,
flushed click groups, teardown, and ticks arriving while stopped or from
dead subscriptions — leaves it unchanged, in both variants. Between resets
it is therefore monotonically non-decreasing. -/
theorem c8_elapsed_frame (s₁ : V1State) (e₁ : V1Event)
    (s₂ : V2State) (e₂ : V2Event) :
    ((v1step e₁ s₁).elapsedSeconds = s₁.elapsedSeconds ∨
      ((v1step e₁ s₁).elapsedSeconds = s₁.elapsedSeconds + 1 ∧
        e₁ = V1Event.tick ∧ s₁.running = true) ∨
      ((v1step e₁ s₁).elapsedSeconds = 0 ∧ e₁ = V1Event.reset)) ∧
    ((v2step e₂ s₂).elapsedSeconds = s₂.elapsedSeconds ∨
      ((v2step e₂ s₂).elapsedSeconds = s₂.elapsedSeconds + 1 ∧
        (∃ g, e₂ = V2Event.tick g ∧ g ∈ s₂.alive) ∧ s₂.isRunning = true) ∨
      ((v2step e₂ s₂).elapsedSeconds = 0 ∧ e₂ = V2Event.reset)) := by
  constructor
  · cases e₁ with
    | toggle => exact Or.inl rfl
    | reset => exact Or.inr (Or.inr ⟨rfl, rfl⟩)
    | waitClick => exact Or.inl rfl
    | tick =>
      cases hr : s₁.running with
      | false => exact Or.inl (by simp [v1step, hr])
      | true =>
        cases hd : s₁.destroyed with
        | false =>
          exact Or.inr (Or.inl ⟨by simp [v1step, hr, hd], rfl, rfl⟩)
        | true => exact Or.inl (by simp [v1step, hr, hd])
    | debounceFire =>
      refine Or.inl ?_
      simp only [v1step]
      split <;> rfl
    | destroy => exact Or.inl rfl
  · cases e₂ with
    | toggle =>
      refine Or.inl ?_
      simp only [v2step]
      split <;> rfl
    | reset => exact Or.inr (Or.inr ⟨rfl, rfl⟩)
    | waitClick => exact Or.inl rfl
    | tick g =>
      by_cases hg : g ∈ s₂.alive
      · cases hr : s₂.isRunning with
        | false => exact Or.inl (by simp [v2step, hg, hr])
        | true =>
          exact Or.inr (Or.inl ⟨by simp [v2step, hg, hr], ⟨g, rfl, hg⟩, rfl⟩)
      · exact Or.inl (by simp [v2step, hg])
    | debounceFire =>
      refine Or.inl ?_
      simp only [v2step]
      split <;> rfl

/-- Claim C2. On a finite sequence of wait-clicks, the
`buffer(debounceTime(300))` pipe closes a group when no new click has
arrived for 300ms since the group's last click: every click lands in
exactly one flushed group, within a group consecutive clicks are less than
300ms apart, and consecutive groups are separated by at least 300ms. Each
closed group is then passed through `filter(len ≥ 2)`, so a group of 2 or
more clicks emits exactly one pause signal and a group of fewer emits none:
a single click yields no signal, two clicks at least 300ms apart yield no
signal, and two clicks under 300ms apart yield exactly one. -/
theorem c2_click_grouping (ts : List Nat) (t t₁ t₂ : Nat) :
    pauseSignals [t] = 0 ∧
    (300 ≤ t₂ - t₁ → pauseSignals [t₁, t₂] = 0) ∧
    (t₂ - t₁ < 300 → pauseSignals [t₁, t₂] = 1) ∧
    (groupClicks ts).flatten = ts ∧
    (∀ g ∈ groupClicks ts, List.Chain' (fun a b => b - a < 300) g) ∧
    List.Chain' GroupGap (groupClicks ts) ∧
    pauseSignals ts
      = ((groupClicks ts).filter (fun g => 2 ≤ g.length)).length := by
  refine ⟨rfl, ?_, ?_, ?_, ?_, ?_, rfl⟩
  · intro h
    have h' : ¬ t₂ - t₁ < 300 := by omega
    simp [pauseSignals, groupClicks, groupClicksAux, h']
  · intro h
    simp [pauseSignals, groupClicks, groupClicksAux, h]
  · cases ts with
    | nil => rfl
    | cons a as => simpa using groupClicksAux_join as [a] a
  · cases ts with
    | nil => simp [groupClicks]
    | cons a as =>
      exact groupClicksAux_chain as [a] a rfl (List.chain'_singleton a)
  · cases ts with
    | nil => simp [groupClicks]
    | cons a as => exact groupClicksAux_gap as [a] a rfl

/-- Witness for C2: two clicks 400ms apart yield no pause signal; two
clicks 120ms apart yield exactly one. -/
theorem c2_click_grouping_witness :
    pauseSignals [0, 400] = 0 ∧ pauseSignals [0, 120] = 1 :=
  ⟨(c2_click_grouping [] 0 0 400).2.1 (by decide),
   (c2_click_grouping [] 0 0 120).2.2.1 (by decide)⟩

end Stopwatch
